import Mathlib

/-!
A shallow embedding of the Qval query-parameter validation library
(qval/validator.py, qval/qval.py, qval/utils.py, qval/exceptions.py).

Python dictionaries are modelled as insertion-ordered association lists;
Python exceptions as values of `PyExc`, carrying their class, detail
message, HTTP status code where the class defines one, and the
`__cause__` link set by `raise ... from ...`.  Raising is modelled with
`Except`.  Python `float` is modelled by `Rat`.
-/

set_option autoImplicit false

namespace Qval

/--
Exception classes appearing in the library, with enough of the Python
class hierarchy to express `except` clauses and the exact-type check in
`QueryParamValidator.__exit__`.  `apiExceptionSub n` stands for an
arbitrary proper subclass of `APIException` other than
`InvalidQueryParamException`; `invalidQueryParamSub n` for an arbitrary
proper subclass of `InvalidQueryParamException`; `other n` for any
exception class unrelated to the ones named here (IOError, ...).
-/
inductive ExcClass where
  | apiException
  | apiExceptionSub (n : Nat)
  | invalidQueryParam
  | invalidQueryParamSub (n : Nat)
  | qvalValidationError
  | keyError
  | valueError
  | typeError
  | other (n : Nat)
deriving DecidableEq, Repr

/--
A Python exception value: its class, its detail message (for
`InvalidQueryParamException` the string under the "error" key of the
detail dict), its `status_code` when the class carries one, and its
`__cause__` as set by `raise ... from ...`.
-/
inductive PyExc where
  | mk (cls : ExcClass) (detail : String) (status : Option Nat) (cause : Option PyExc)

def PyExc.cls : PyExc → ExcClass
  | .mk c _ _ _ => c

def PyExc.detail : PyExc → String
  | .mk _ d _ _ => d

def PyExc.status : PyExc → Option Nat
  | .mk _ _ s _ => s

def PyExc.cause : PyExc → Option PyExc
  | .mk _ _ _ c => c

/-- The `except KeyError` clause in `_validate` catches this class. -/
def ExcClass.caughtAsKeyError : ExcClass → Bool
  | .keyError => true
  | _ => false

/-- The `except (ValueError, TypeError)` clause in `_validate` catches this class. -/
def ExcClass.caughtAsValueOrTypeError : ExcClass → Bool
  | .valueError | .typeError => true
  | _ => false

/-- `issubclass(c, APIException)` in the modelled hierarchy. -/
def ExcClass.subclassOfAPIException : ExcClass → Bool
  | .apiException | .apiExceptionSub _ | .invalidQueryParam | .invalidQueryParamSub _ => true
  | _ => false

/-- `issubclass(c, InvalidQueryParamException)` in the modelled hierarchy. -/
def ExcClass.subclassOfInvalidQueryParam : ExcClass → Bool
  | .invalidQueryParam | .invalidQueryParamSub _ => true
  | _ => false

/-- Python values stored in the result dict: raw strings, `int`/`float`
conversions, arbitrary objects produced by custom factories. `obj n`
stands for any other Python object, distinguished by an index. -/
inductive Value where
  | str (s : String)
  | int (n : Int)
  | float (q : Rat)
  | obj (n : Nat)
deriving DecidableEq, Repr

/-- Model of `str(value)` as used in the f-string building the generic
invalid-value message. -/
def Value.pyStr : Value → String
  | .str s => s
  | .int n => toString n
  | .float q => toString q.num ++ "/" ++ toString q.den
  | .obj n => "<object " ++ toString n ++ ">"

/-- First-match lookup in an insertion-ordered association list,
modelling `d[k]` on a Python dict (keys are unique there, so first
match is the match). -/
def alookup {α : Type} : List (String × α) → String → Option α
  | [], _ => Option.none
  | (k, v) :: rest, key => if k = key then some v else alookup rest key

/-- `d[k] = v` on a Python dict: overwrite in place when the key exists
(keeping its position), append otherwise. -/
def dictSet {α : Type} : List (String × α) → String → α → List (String × α)
  | [], key, v => [(key, v)]
  | kv :: rest, key, v => if kv.1 = key then (key, v) :: rest else kv :: dictSet rest key v

/--
A declared converter (`factories` value).  `id` is the declared `None`
(which `_validate` replaces by the identity); `cint` and `cfloat` are
the builtins `int` and `float`, the only converters recognized by the
`cast in (int, float)` check; `custom f` is any other callable, whose
behaviour on a raw string is an arbitrary value-or-exception outcome.
-/
inductive Conv where
  | id
  | cint
  | cfloat
  | custom (f : String → Except PyExc Value)

/-- Accumulator pass over a run of decimal digits; fails on the first
non-digit character. -/
def pyNatDigitsAux : List Char → Nat → Option Nat
  | [], acc => some acc
  | ch :: rest, acc =>
    if '0'.toNat ≤ ch.toNat ∧ ch.toNat ≤ '9'.toNat then
      pyNatDigitsAux rest (acc * 10 + (ch.toNat - '0'.toNat))
    else Option.none

/-- Model of the Python `int` builtin on strings: optional sign followed
by decimal digits. -/
def pyIntParse (s : String) : Option Int :=
  match s.data with
  | '-' :: rest =>
    if rest.isEmpty then Option.none
    else (pyNatDigitsAux rest 0).map (fun n => -(n : Int))
  | l =>
    if l.isEmpty then Option.none
    else (pyNatDigitsAux l 0).map (fun n => (n : Int))

/-- Decimal-literal core of the model of the Python `float` builtin:
digits with at most one decimal point. -/
def pyFloatCore (l : List Char) : Option Rat :=
  match l.dropWhile (fun c => c ≠ '.') with
  | [] =>
    if l.isEmpty then Option.none
    else (pyNatDigitsAux l 0).map (fun n => (n : Rat))
  | _ :: frac =>
    if (l.takeWhile (fun c => c ≠ '.')).isEmpty ∨ frac.isEmpty then Option.none
    else
      match pyNatDigitsAux (l.takeWhile (fun c => c ≠ '.')) 0, pyNatDigitsAux frac 0 with
      | some a, some b => some ((a : Rat) + (b : Rat) / ((10 : Rat) ^ frac.length))
      | _, _ => Option.none

/-- Model of the Python `float` builtin on strings (sign + decimal literal). -/
def pyFloatParse (s : String) : Option Rat :=
  match s.data with
  | '-' :: rest => (pyFloatCore rest).map (fun q => -q)
  | l => pyFloatCore l

/-- Applying a converter to the raw string, `cast(query_params[param])`
after the `cast = cast or (lambda x: x)` defaulting.  The builtins
raise `ValueError` on unparsable input. -/
def applyConv : Conv → String → Except PyExc Value
  | .id, s => .ok (.str s)
  | .cint, s =>
    match pyIntParse s with
    | some n => .ok (.int n)
    | Option.none =>
      .error (.mk .valueError ("invalid literal for int with base 10: " ++ s) Option.none Option.none)
  | .cfloat, s =>
    match pyFloatParse s with
    | some q => .ok (.float q)
    | Option.none =>
      .error (.mk .valueError ("could not convert string to float: " ++ s) Option.none Option.none)
  | .custom f, s => f s

/-- The `expected` fragment of the invalid-type message: the
`if cast in (int, float)` check exposes only the builtin names. -/
def expectedHint : Conv → String
  | .cint => ": expected int."
  | .cfloat => ": expected float."
  | _ => "."

def missingMsg (param : String) : String :=
  "Missing required parameter `" ++ param ++ "`."

def invalidTypeMsg (param : String) (cast : Conv) : String :=
  "Invalid type of the `" ++ param ++ "` parameter" ++ expectedHint cast

def invalidValueMsg (param : String) (v : Value) : String :=
  "Invalid `" ++ param ++ "` value: " ++ v.pyStr ++ "."

/-- The client-safe detail of the `APIException` raised by `__exit__`
(the typo "you request" is the source's). -/
def internalErrorMsg : String :=
  "An error occurred while processing you request. Please contact the website administrator."

def missingExc (param : String) : PyExc :=
  .mk .invalidQueryParam (missingMsg param) (some 400) Option.none

def invalidTypeExc (param : String) (cast : Conv) : PyExc :=
  .mk .invalidQueryParam (invalidTypeMsg param cast) (some 400) Option.none

/-- `qval.validator.Validator`: an ordered list of predicates.  A
predicate applied to a value either returns a bool or raises. -/
structure Validator where
  predicates : List (Value → Except PyExc Bool)

/-- `Validator.add`: appends and returns the validator. -/
def Validator.add (v : Validator) (p : Value → Except PyExc Bool) : Validator :=
  { predicates := v.predicates ++ [p] }

/-- The loop body of `Validator.__call__`: apply the predicates in
order, returning False on the first failing one. -/
def runPredicates : List (Value → Except PyExc Bool) → Value → Except PyExc Bool
  | [], _ => .ok true
  | p :: ps, x =>
    match p x with
    | .ok true => runPredicates ps x
    | .ok false => .ok false
    | .error e => .error e

/-- `Validator.__call__(value)`. -/
def Validator.call (v : Validator) (x : Value) : Except PyExc Bool :=
  runPredicates v.predicates x

/-- `qval.utils.FrozenBox`: a frozen dict with attribute access. -/
structure FrozenBox where
  dct : List (String × Value)

/-- `FrozenBox.__getitem__`: dict lookup, raising `KeyError` on absence. -/
def FrozenBox.getItem (b : FrozenBox) (item : String) : Except PyExc Value :=
  match alookup b.dct item with
  | some v => .ok v
  | Option.none => .error (.mk .keyError item Option.none Option.none)

/-- `FrozenBox.__getattr__`: `return self[item]`. -/
def FrozenBox.getAttr (b : FrozenBox) (item : String) : Except PyExc Value :=
  b.getItem item

/-- `FrozenBox.__setattr__`: unconditionally raises `TypeError`
(message quotes the class name in the source). -/
def FrozenBox.setAttr (b : FrozenBox) (key : String) (v : Value) : Except PyExc FrozenBox :=
  .error (.mk .typeError "FrozenBox object does not support attribute assignment" Option.none Option.none)

/-- `box[key] = v`: `FrozenBox` defines no `__setitem__`, so CPython
raises `TypeError` before anything runs. -/
def FrozenBox.setItem (b : FrozenBox) (key : String) (v : Value) : Except PyExc FrozenBox :=
  .error (.mk .typeError "FrozenBox object does not support item assignment" Option.none Option.none)

/-- `FrozenBox.__contains__`. -/
def FrozenBox.contains (b : FrozenBox) (item : String) : Bool :=
  (alookup b.dct item).isSome

/-- `FrozenBox.__iter__`: `iter(__dct__.items())`, i.e. the pairs in
dict insertion order. -/
def FrozenBox.iter (b : FrozenBox) : List (String × Value) :=
  b.dct

/-- The request interface the engine consumes: its query parameters
(an ordered string dict) and its optional `body` attribute, read by
`getattr(self.request, "body", {})`. -/
structure Request where
  params : List (String × String)
  body : Option String

/-- `QueryParamValidator` state after `__init__`: the request, the
declarations, the include-all flag, the initial result dict and the
`_params` validator dict. -/
structure QueryParamValidator where
  request : Request
  factories : List (String × Conv)
  boxAll : Bool
  result : List (String × Value)
  paramsMap : List (String × Validator)

/-- The `box_all = False` branch of the result-dict comprehension in
`__init__`: iterate the declared names in order, looking each up in the
query parameters; the first absent one raises a bare `KeyError`. -/
def initResultDeclared (queryParams : List (String × String)) :
    List (String × Conv) → Except PyExc (List (String × Value))
  | [] => .ok []
  | (k, _) :: rest =>
    match alookup queryParams k with
    | some v => do
      let r ← initResultDeclared queryParams rest
      .ok ((k, Value.str v) :: r)
    | Option.none => .error (.mk .keyError k Option.none Option.none)

/-- The result-dict comprehension in `__init__`. -/
def initResult (queryParams : List (String × String)) (factories : List (String × Conv))
    (boxAll : Bool) : Except PyExc (List (String × Value)) :=
  if boxAll then .ok (queryParams.map (fun kv => (kv.1, Value.str kv.2)))
  else initResultDeclared queryParams factories

/-- `_params` construction in `__init__`: a default empty validator per
result key, then `update`d with the provided validators dict. -/
def buildParams (result : List (String × Value)) (validators : List (String × Validator)) :
    List (String × Validator) :=
  validators.foldl (fun acc kv => dictSet acc kv.1 kv.2)
    (result.map (fun kv => (kv.1, Validator.mk [])))

/-- `QueryParamValidator.__init__`.  Fallible: with `box_all` off, a
declared key absent from the query parameters raises `KeyError` here. -/
def QueryParamValidator.make (request : Request) (factories : List (String × Conv))
    (validators : List (String × Validator)) (boxAll : Bool) :
    Except PyExc QueryParamValidator := do
  let r ← initResult request.params factories boxAll
  .ok { request := request, factories := factories, boxAll := boxAll, result := r,
        paramsMap := buildParams r validators }

/-- The `try` body of the conversion loop: look up the raw string
(`KeyError` on absence) and apply the converter. -/
def castStep (queryParams : List (String × String)) (param : String) (cast : Conv) :
    Except PyExc Value :=
  match alookup queryParams param with
  | some raw => applyConv cast raw
  | Option.none => .error (.mk .keyError param Option.none Option.none)

/-- The `except` clauses of the conversion loop: `KeyError` becomes the
missing-parameter error, `ValueError`/`TypeError` the invalid-type
error, anything else propagates unchanged. -/
def classifyCastError (param : String) (cast : Conv) (e : PyExc) : PyExc :=
  if e.cls.caughtAsKeyError then missingExc param
  else if e.cls.caughtAsValueOrTypeError then invalidTypeExc param cast
  else e

/-- Phase 1 of `_validate`: the conversion loop over the declared
factories (in declaration order), writing converted values into the
result dict. -/
def phase1 (queryParams : List (String × String)) :
    List (String × Conv) → List (String × Value) → Except PyExc (List (String × Value))
  | [], result => .ok result
  | (param, cast) :: rest, result =>
    match castStep queryParams param cast with
    | .ok v => phase1 queryParams rest (dictSet result param v)
    | .error e => .error (classifyCastError param cast e)

/-- Phase 2 of `_validate`: run each result entry's validator; a
returned False raises the generic `QvalValidationError`, which the
`except QvalValidationError` clause rewraps (as does one raised by a
predicate) into the 400 error with the error's own message and with the
`QvalValidationError` as cause; any other predicate exception
propagates unchanged. -/
def phase2 (validatorsMap : List (String × Validator)) :
    List (String × Value) → Except PyExc Unit
  | [] => .ok ()
  | (param, v) :: rest =>
    match alookup validatorsMap param with
    | Option.none => .error (.mk .keyError param Option.none Option.none)
    | some vd =>
      match vd.call v with
      | .ok true => phase2 validatorsMap rest
      | .ok false =>
        let e : PyExc := .mk .qvalValidationError (invalidValueMsg param v) Option.none Option.none
        .error (.mk .invalidQueryParam e.detail (some 400) (some e))
      | .error e =>
        if e.cls = .qvalValidationError then
          .error (.mk .invalidQueryParam e.detail (some 400) (some e))
        else .error e

/-- `QueryParamValidator._validate`, returning the final result dict. -/
def QueryParamValidator.runValidation (q : QueryParamValidator) :
    Except PyExc (List (String × Value)) := do
  let r ← phase1 q.request.params q.factories q.result
  let _ ← phase2 q.paramsMap r
  .ok r

/-- One `utils.log.error` event emitted by `__exit__`: the fields of
its `extra` payload that the model can state (query parameters, request
body, and the exception being reported). -/
structure LogRecord where
  parameters : List (String × String)
  requestBody : Option String
  excCls : ExcClass
  excDetail : String
deriving Repr

/-- `QueryParamValidator.__exit__`: given the pending exception (none
on a clean exit), returns the log events it emits and the replacement
exception it raises, if any.  The guard is the exact-type test
`exc_type not in (InvalidQueryParamException, None)`. -/
def QueryParamValidator.exitStep (q : QueryParamValidator) (exc : Option PyExc) :
    List LogRecord × Option PyExc :=
  match exc with
  | Option.none => ([], Option.none)
  | some e =>
    if e.cls = ExcClass.invalidQueryParam then ([], Option.none)
    else ([⟨q.request.params, q.request.body, e.cls, e.detail⟩],
          some (.mk .apiException internalErrorMsg (some 500) (some e)))

/-- `QueryParamValidator.__enter__`: run `_validate` under
`_cleanup_on_error` (which invokes `__exit__` on the pending exception)
and on success box the result.  Returns the outcome together with the
log events emitted. -/
def QueryParamValidator.enter (q : QueryParamValidator) :
    Except PyExc FrozenBox × List LogRecord :=
  match q.runValidation with
  | .ok r => (.ok ⟨r⟩, [])
  | .error e =>
    match q.exitStep (some e) with
    | (logs, Option.none) => (.error e, logs)
    | (logs, some e2) => (.error e2, logs)

/-- A full `with q as box: body(box)` statement: enter, run the block,
and run `__exit__` on whatever the block raised. -/
def QueryParamValidator.runSession {α : Type} (q : QueryParamValidator)
    (body : FrozenBox → Except PyExc α) : Except PyExc α × List LogRecord :=
  match q.enter with
  | (.error e, logs) => (.error e, logs)
  | (.ok box, logs) =>
    match body box with
    | .ok a => (.ok a, logs ++ (q.exitStep Option.none).1)
    | .error e =>
      match q.exitStep (some e) with
      | (logs2, Option.none) => (.error e, logs ++ logs2)
      | (logs2, some e2) => (.error e2, logs ++ logs2)

/-- `with validate(request, ...) as box: body(box)`: construction
followed by a session; a construction failure propagates as-is, before
any session exists. -/
def runValidate {α : Type} (request : Request) (factories : List (String × Conv))
    (validators : List (String × Validator)) (boxAll : Bool)
    (body : FrozenBox → Except PyExc α) : Except PyExc α × List LogRecord :=
  match QueryParamValidator.make request factories validators boxAll with
  | .error e => (.error e, [])
  | .ok q => q.runSession body

/-! ### Association-list lemmas -/

theorem alookup_isSome_iff {α : Type} (l : List (String × α)) (k : String) :
    (alookup l k).isSome ↔ k ∈ l.map Prod.fst := by
  induction l with
  | nil => simp [alookup]
  | cons kv rest ih =>
    obtain ⟨k0, v0⟩ := kv
    by_cases h : k0 = k
    · subst h; simp [alookup]
    · simp [alookup, h, ih, Ne.symm h]

theorem alookup_map_str (qp : List (String × String)) (k : String) :
    alookup (qp.map (fun kv => (kv.1, Value.str kv.2))) k = (alookup qp k).map Value.str := by
  induction qp with
  | nil => simp [alookup]
  | cons kv rest ih =>
    by_cases h : kv.1 = k <;> simp [alookup, h, ih]

theorem alookup_dictSet_self {α : Type} (d : List (String × α)) (k : String) (v : α) :
    alookup (dictSet d k v) k = some v := by
  induction d with
  | nil => simp [dictSet, alookup]
  | cons kv rest ih =>
    by_cases h : kv.1 = k <;> simp [dictSet, alookup, h, ih]

theorem alookup_dictSet_ne {α : Type} (d : List (String × α)) (k v : _) (k2 : String)
    (h : k2 ≠ k) : alookup (dictSet d k v) k2 = alookup d k2 := by
  induction d with
  | nil => simp [dictSet, alookup, Ne.symm h]
  | cons kv rest ih =>
    by_cases hk : kv.1 = k
    · subst hk; simp [dictSet, alookup, Ne.symm h, h]
    · by_cases hk2 : kv.1 = k2 <;> simp [dictSet, alookup, hk, hk2, ih, h]

theorem dictSet_map_fst_mem {α : Type} (d : List (String × α)) (k : String) (v : α)
    (h : k ∈ d.map Prod.fst) : (dictSet d k v).map Prod.fst = d.map Prod.fst := by
  induction d with
  | nil => simp at h
  | cons kv rest ih =>
    by_cases hk : kv.1 = k
    · subst hk; simp [dictSet]
    · simp [dictSet, hk]
      apply ih
      rw [List.map_cons] at h
      rcases List.mem_cons.mp h with h | h
      · exact absurd h.symm hk
      · exact h

/-! ### Phase-1 lemmas -/

theorem castStep_ok_iff (qp : List (String × String)) (p : String) (c : Conv) (v : Value) :
    castStep qp p c = .ok v ↔ ∃ raw, alookup qp p = some raw ∧ applyConv c raw = .ok v := by
  unfold castStep
  cases h : alookup qp p <;> simp

theorem phase1_ok_present (qp : List (String × String)) (fs : List (String × Conv))
    (d r : List (String × Value)) (h : phase1 qp fs d = .ok r) :
    ∀ pc ∈ fs, ∃ raw val, alookup qp pc.1 = some raw ∧ applyConv pc.2 raw = .ok val := by
  induction fs generalizing d with
  | nil => simp
  | cons pc0 rest ih =>
    obtain ⟨p, c⟩ := pc0
    intro pc hpc
    simp only [phase1] at h
    cases hcs : castStep qp p c with
    | ok v =>
      rw [hcs] at h
      rcases List.mem_cons.mp hpc with rfl | hmem
      · obtain ⟨raw, hraw, happ⟩ := (castStep_ok_iff qp p c v).mp hcs
        exact ⟨raw, v, hraw, happ⟩
      · exact ih (dictSet d p v) h pc hmem
    | error e => rw [hcs] at h; simp at h

theorem phase1_ok_notin (qp : List (String × String)) (fs : List (String × Conv))
    (d r : List (String × Value)) (h : phase1 qp fs d = .ok r) (k : String)
    (hk : k ∉ fs.map Prod.fst) : alookup r k = alookup d k := by
  induction fs generalizing d with
  | nil => simp only [phase1, Except.ok.injEq] at h; rw [h]
  | cons pc0 rest ih =>
    obtain ⟨p, c⟩ := pc0
    simp only [phase1] at h
    rw [List.map_cons] at hk
    cases hcs : castStep qp p c with
    | ok v =>
      rw [hcs] at h
      have hne : k ≠ p := fun hkp => hk (hkp ▸ List.mem_cons_self p _)
      have := ih (dictSet d p v) h
      rw [this fun hm => hk (List.mem_cons_of_mem _ hm)]
      exact alookup_dictSet_ne d p v k hne
    | error e => rw [hcs] at h; simp at h

theorem phase1_ok_mem (qp : List (String × String)) (fs : List (String × Conv))
    (d r : List (String × Value)) (hnd : (fs.map Prod.fst).Nodup)
    (h : phase1 qp fs d = .ok r) :
    ∀ pc ∈ fs, ∃ raw val, alookup qp pc.1 = some raw ∧ applyConv pc.2 raw = .ok val ∧
      alookup r pc.1 = some val := by
  induction fs generalizing d with
  | nil => simp
  | cons pc0 rest ih =>
    obtain ⟨p, c⟩ := pc0
    intro pc hpc
    simp only [phase1] at h
    rw [List.map_cons, List.nodup_cons] at hnd
    cases hcs : castStep qp p c with
    | ok v =>
      rw [hcs] at h
      rcases List.mem_cons.mp hpc with rfl | hmem
      · obtain ⟨raw, hraw, happ⟩ := (castStep_ok_iff qp p c v).mp hcs
        refine ⟨raw, v, hraw, happ, ?_⟩
        rw [phase1_ok_notin qp rest (dictSet d p v) r h p hnd.1]
        exact alookup_dictSet_self d p v
      · exact ih (dictSet d p v) hnd.2 h pc hmem
    | error e => rw [hcs] at h; simp at h

theorem phase1_ok_of_all (qp : List (String × String)) (fs : List (String × Conv))
    (d : List (String × Value))
    (hall : ∀ pc ∈ fs, ∃ raw val, alookup qp pc.1 = some raw ∧ applyConv pc.2 raw = .ok val) :
    ∃ r, phase1 qp fs d = .ok r := by
  induction fs generalizing d with
  | nil => exact ⟨d, rfl⟩
  | cons pc0 rest ih =>
    obtain ⟨p, c⟩ := pc0
    obtain ⟨raw, val, hraw, happ⟩ := hall (p, c) (List.mem_cons_self _ _)
    have hcs : castStep qp p c = .ok val := by
      unfold castStep; rw [hraw]; exact happ
    obtain ⟨r, hr⟩ := ih (dictSet d p val) (fun pc hpc => hall pc (List.mem_cons_of_mem _ hpc))
    exact ⟨r, by simp only [phase1]; rw [hcs]; exact hr⟩

theorem phase1_ok_fst (qp : List (String × String)) (fs : List (String × Conv))
    (d r : List (String × Value)) (h : phase1 qp fs d = .ok r)
    (hmem : ∀ p ∈ fs.map Prod.fst, p ∈ d.map Prod.fst) :
    r.map Prod.fst = d.map Prod.fst := by
  induction fs generalizing d with
  | nil => simp only [phase1, Except.ok.injEq] at h; rw [h]
  | cons pc0 rest ih =>
    obtain ⟨p, c⟩ := pc0
    simp only [phase1] at h
    cases hcs : castStep qp p c with
    | ok v =>
      rw [hcs] at h
      have hp : p ∈ d.map Prod.fst := hmem p (by simp)
      have hset := dictSet_map_fst_mem d p v hp
      have := ih (dictSet d p v) h (fun p2 hp2 => by
        rw [hset]
        exact hmem p2 (by rw [List.map_cons]; exact List.mem_cons_of_mem _ hp2))
      rw [this, hset]
    | error e => rw [hcs] at h; simp at h

theorem phase1_append (qp : List (String × String)) (pre rest : List (String × Conv))
    (d : List (String × Value))
    (hall : ∀ pc ∈ pre, ∃ raw val, alookup qp pc.1 = some raw ∧ applyConv pc.2 raw = .ok val) :
    ∃ d2, phase1 qp (pre ++ rest) d = phase1 qp rest d2 := by
  induction pre generalizing d with
  | nil => exact ⟨d, rfl⟩
  | cons pc0 tail ih =>
    obtain ⟨p, c⟩ := pc0
    obtain ⟨raw, val, hraw, happ⟩ := hall (p, c) (List.mem_cons_self _ _)
    have hcs : castStep qp p c = .ok val := by
      unfold castStep; rw [hraw]; exact happ
    obtain ⟨d2, hd2⟩ := ih (dictSet d p val) (fun pc hpc => hall pc (List.mem_cons_of_mem _ hpc))
    refine ⟨d2, ?_⟩
    rw [List.cons_append]
    simp only [phase1]
    rw [hcs]
    exact hd2

/-! ### Phase-2 lemmas -/

theorem phase2_ok_iff (ps : List (String × Validator)) (r : List (String × Value)) :
    phase2 ps r = .ok () ↔
      ∀ kv ∈ r, ∃ vd, alookup ps kv.1 = some vd ∧ vd.call kv.2 = .ok true := by
  induction r with
  | nil => simp [phase2]
  | cons kv rest ih =>
    obtain ⟨p, v⟩ := kv
    simp only [phase2]
    cases hl : alookup ps p with
    | none => simp [hl]
    | some vd =>
      cases hc : vd.call v with
      | ok b => cases b <;> simp [hl, hc, ih]
      | error e =>
        by_cases he : e.cls = ExcClass.qvalValidationError <;> simp [hl, hc, he, ih]

theorem phase2_append_ok (ps : List (String × Validator)) (pre rest : List (String × Value))
    (hpre : ∀ kv ∈ pre, ∃ vd, alookup ps kv.1 = some vd ∧ vd.call kv.2 = .ok true) :
    phase2 ps (pre ++ rest) = phase2 ps rest := by
  induction pre with
  | nil => rfl
  | cons kv tail ih =>
    obtain ⟨p, v⟩ := kv
    obtain ⟨vd, hl, hc⟩ := hpre (p, v) (List.mem_cons_self _ _)
    rw [List.cons_append]
    simp only [phase2, hl, hc]
    exact ih (fun kv h => hpre kv (List.mem_cons_of_mem _ h))

/-! ### Predicate-chain lemmas -/

theorem runPredicates_ok_true_iff (ps : List (Value → Except PyExc Bool)) (x : Value) :
    runPredicates ps x = .ok true ↔ ∀ p ∈ ps, p x = .ok true := by
  induction ps with
  | nil => simp [runPredicates]
  | cons p rest ih =>
    simp only [runPredicates]
    cases hp : p x with
    | ok b => cases b <;> simp [hp, ih]
    | error e => simp [hp]

theorem runPredicates_shortCircuit (ps1 ps2 : List (Value → Except PyExc Bool))
    (p : Value → Except PyExc Bool) (x : Value)
    (h1 : ∀ q ∈ ps1, q x = .ok true) (hp : p x = .ok false) :
    runPredicates (ps1 ++ p :: ps2) x = .ok false := by
  induction ps1 with
  | nil => simp [runPredicates, hp]
  | cons q tail ih =>
    have hq := h1 q (List.mem_cons_self _ _)
    rw [List.cons_append]
    simp only [runPredicates, hq]
    exact ih (fun q2 h => h1 q2 (List.mem_cons_of_mem _ h))

/-! ### Constructor lemmas -/

theorem initResultDeclared_ok_fst (qp : List (String × String)) (fs : List (String × Conv))
    (r : List (String × Value)) (h : initResultDeclared qp fs = .ok r) :
    r.map Prod.fst = fs.map Prod.fst := by
  induction fs generalizing r with
  | nil =>
    simp only [initResultDeclared, Except.ok.injEq] at h
    rw [← h]; rfl
  | cons kv rest ih =>
    obtain ⟨k, c⟩ := kv
    simp only [initResultDeclared] at h
    cases hl : alookup qp k with
    | none => rw [hl] at h; simp at h
    | some v =>
      rw [hl] at h
      cases hr : initResultDeclared qp rest with
      | error e => rw [hr] at h; simp only [Bind.bind, Except.bind] at h; simp at h
      | ok r2 =>
        rw [hr] at h
        simp only [Bind.bind, Except.bind, Except.ok.injEq] at h
        rw [← h, List.map_cons, ih r2 hr, List.map_cons]

theorem initResultDeclared_append_missing (qp : List (String × String))
    (pre post : List (String × Conv)) (p : String) (c : Conv)
    (hpre : ∀ kv ∈ pre, (alookup qp kv.1).isSome)
    (hp : alookup qp p = Option.none) :
    initResultDeclared qp (pre ++ (p, c) :: post) =
      .error (.mk .keyError p Option.none Option.none) := by
  induction pre with
  | nil => simp [initResultDeclared, hp]
  | cons kv tail ih =>
    obtain ⟨k, c2⟩ := kv
    obtain ⟨v, hv⟩ := Option.isSome_iff_exists.mp (hpre (k, c2) (List.mem_cons_self _ _))
    rw [List.cons_append]
    simp only [initResultDeclared, hv]
    rw [ih (fun kv h => hpre kv (List.mem_cons_of_mem _ h))]
    rfl

theorem make_ok_elim (req : Request) (fs : List (String × Conv))
    (vs : List (String × Validator)) (ba : Bool) (q : QueryParamValidator)
    (h : QueryParamValidator.make req fs vs ba = .ok q) :
    initResult req.params fs ba = .ok q.result ∧ q.request = req ∧ q.factories = fs ∧
      q.boxAll = ba ∧ q.paramsMap = buildParams q.result vs := by
  unfold QueryParamValidator.make at h
  cases hr : initResult req.params fs ba with
  | error e => rw [hr] at h; simp only [Bind.bind, Except.bind] at h; simp at h
  | ok r =>
    rw [hr] at h
    simp only [Bind.bind, Except.bind, Except.ok.injEq] at h
    rw [← h]
    exact ⟨rfl, rfl, rfl, rfl, rfl⟩

theorem make_boxAll_true (req : Request) (fs : List (String × Conv))
    (vs : List (String × Validator)) :
    QueryParamValidator.make req fs vs true =
      .ok { request := req, factories := fs, boxAll := true,
            result := req.params.map (fun kv => (kv.1, Value.str kv.2)),
            paramsMap := buildParams (req.params.map (fun kv => (kv.1, Value.str kv.2))) vs } := rfl

/-! ### Session lemmas -/

theorem enter_ok (q : QueryParamValidator) (r : List (String × Value))
    (h : q.runValidation = .ok r) : q.enter = (.ok ⟨r⟩, []) := by
  unfold QueryParamValidator.enter
  rw [h]

theorem enter_error_invalid (q : QueryParamValidator) (e : PyExc)
    (h : q.runValidation = .error e) (hc : e.cls = ExcClass.invalidQueryParam) :
    q.enter = (.error e, []) := by
  unfold QueryParamValidator.enter QueryParamValidator.exitStep
  rw [h]
  simp [hc]

theorem enter_error_other (q : QueryParamValidator) (e : PyExc)
    (h : q.runValidation = .error e) (hc : e.cls ≠ ExcClass.invalidQueryParam) :
    q.enter = (.error (.mk .apiException internalErrorMsg (some 500) (some e)),
               [⟨q.request.params, q.request.body, e.cls, e.detail⟩]) := by
  unfold QueryParamValidator.enter QueryParamValidator.exitStep
  rw [h]
  simp [hc]

theorem runSession_block_error (α : Type) (q : QueryParamValidator)
    (body : FrozenBox → Except PyExc α) (r : List (String × Value)) (e : PyExc)
    (hv : q.runValidation = .ok r) (hb : body ⟨r⟩ = .error e) :
    q.runSession body =
      if e.cls = ExcClass.invalidQueryParam then (.error e, [])
      else (.error (.mk .apiException internalErrorMsg (some 500) (some e)),
            [⟨q.request.params, q.request.body, e.cls, e.detail⟩]) := by
  unfold QueryParamValidator.runSession
  rw [enter_ok q r hv]
  by_cases hc : e.cls = ExcClass.invalidQueryParam <;>
    simp [hb, QueryParamValidator.exitStep, hc]

theorem runSession_enter_error (α : Type) (q : QueryParamValidator)
    (body : FrozenBox → Except PyExc α) (e : PyExc)
    (hv : q.runValidation = .error e) (hc : e.cls = ExcClass.invalidQueryParam) :
    q.runSession body = (.error e, []) := by
  unfold QueryParamValidator.runSession
  rw [enter_error_invalid q e hv hc]

theorem runValidation_ok (q : QueryParamValidator) (r : List (String × Value))
    (h1 : phase1 q.request.params q.factories q.result = .ok r)
    (h2 : phase2 q.paramsMap r = .ok ()) : q.runValidation = .ok r := by
  unfold QueryParamValidator.runValidation
  rw [h1]
  simp only [Bind.bind, Except.bind]
  rw [h2]

theorem runValidation_error1 (q : QueryParamValidator) (e : PyExc)
    (h1 : phase1 q.request.params q.factories q.result = .error e) :
    q.runValidation = .error e := by
  unfold QueryParamValidator.runValidation
  rw [h1]
  simp only [Bind.bind, Except.bind]

theorem runValidation_error2 (q : QueryParamValidator) (r : List (String × Value)) (e : PyExc)
    (h1 : phase1 q.request.params q.factories q.result = .ok r)
    (h2 : phase2 q.paramsMap r = .error e) : q.runValidation = .error e := by
  unfold QueryParamValidator.runValidation
  rw [h1]
  simp only [Bind.bind, Except.bind]
  rw [h2]

theorem runValidate_make_error (α : Type) (req : Request) (fs : List (String × Conv))
    (vs : List (String × Validator)) (ba : Bool) (body : FrozenBox → Except PyExc α)
    (e : PyExc) (h : QueryParamValidator.make req fs vs ba = .error e) :
    runValidate req fs vs ba body = (.error e, []) := by
  unfold runValidate
  rw [h]

theorem runValidate_make_ok (α : Type) (req : Request) (fs : List (String × Conv))
    (vs : List (String × Validator)) (ba : Bool) (body : FrozenBox → Except PyExc α)
    (q : QueryParamValidator) (h : QueryParamValidator.make req fs vs ba = .ok q) :
    runValidate req fs vs ba body = q.runSession body := by
  unfold runValidate
  rw [h]

theorem runValidation_ok_elim (q : QueryParamValidator) (r : List (String × Value))
    (h : q.runValidation = .ok r) :
    phase1 q.request.params q.factories q.result = .ok r ∧ phase2 q.paramsMap r = .ok () := by
  unfold QueryParamValidator.runValidation at h
  cases h1 : phase1 q.request.params q.factories q.result with
  | error e => rw [h1] at h; simp only [Bind.bind, Except.bind] at h; simp at h
  | ok r2 =>
    rw [h1] at h
    simp only [Bind.bind, Except.bind] at h
    cases h2 : phase2 q.paramsMap r2 with
    | error e => rw [h2] at h; simp at h
    | ok u =>
      cases u
      rw [h2] at h
      simp only [Except.ok.injEq] at h
      subst h
      exact ⟨rfl, h2⟩

theorem phase1_first_error (qp : List (String × String)) (pre post : List (String × Conv))
    (d : List (String × Value)) (p : String) (c : Conv) (e : PyExc)
    (hpre : ∀ pc ∈ pre, ∃ raw val, alookup qp pc.1 = some raw ∧ applyConv pc.2 raw = .ok val)
    (hcs : castStep qp p c = .error e) :
    phase1 qp (pre ++ (p, c) :: post) d = .error (classifyCastError p c e) := by
  obtain ⟨d2, hd2⟩ := phase1_append qp pre ((p, c) :: post) d hpre
  rw [hd2]
  simp only [phase1, hcs]

theorem make_boxAll_false_error (req : Request) (fs : List (String × Conv))
    (vs : List (String × Validator)) (e : PyExc)
    (h : initResultDeclared req.params fs = .error e) :
    QueryParamValidator.make req fs vs false = .error e := by
  unfold QueryParamValidator.make initResult
  simp only [Bool.false_eq_true, if_false, h, Bind.bind, Except.bind]

/-! ### Claim theorems -/

/-- C6: a predicate chain evaluates to True exactly when every predicate, in
insertion order, returns True on the value; evaluation short-circuits at the
first predicate returning False, so the predicates after it are never
consulted (the result is False whatever they are, even if they would raise);
the empty chain passes every value; and `add(p1).add(p2)` appends in order,
so `p1` is evaluated before `p2` — in particular if `p1` fails the chain
fails without consulting `p2`. -/
theorem C6_predicate_chain_semantics :
    (∀ x : Value, (Validator.mk []).call x = .ok true) ∧
    (∀ (v : Validator) (x : Value),
        v.call x = .ok true ↔ ∀ p ∈ v.predicates, p x = .ok true) ∧
    (∀ (ps1 ps2 : List (Value → Except PyExc Bool)) (p : Value → Except PyExc Bool) (x : Value),
        (∀ q ∈ ps1, q x = .ok true) → p x = .ok false →
        (Validator.mk (ps1 ++ p :: ps2)).call x = .ok false) ∧
    (∀ p1 p2 : Value → Except PyExc Bool,
        ((Validator.mk []).add p1).add p2 = Validator.mk [p1, p2]) ∧
    (∀ (p1 p2 : Value → Except PyExc Bool) (x : Value),
        p1 x = .ok false → (((Validator.mk []).add p1).add p2).call x = .ok false) := by
  refine ⟨fun x => rfl, ?_, ?_, fun p1 p2 => rfl, ?_⟩
  · intro v x
    exact runPredicates_ok_true_iff v.predicates x
  · intro ps1 ps2 p x h1 hp
    exact runPredicates_shortCircuit ps1 ps2 p x h1 hp
  · intro p1 p2 x hp
    exact runPredicates_shortCircuit [] [p2] p1 x (by simp) hp

/-- Witness for C6 at concrete inputs: the failing first predicate makes the
chain return False even though the second predicate would raise. -/
theorem C6_predicate_chain_semantics_witness :
    ((Validator.mk []).call (Value.int 0) = .ok true) ∧
    ((Validator.mk [fun _ => .ok true]).call (Value.int 0) = .ok true) ∧
    ((Validator.mk ([] ++ (fun _ => .ok false) ::
        [fun _ => .error (.mk (.other 0) "boom" Option.none Option.none)])).call
      (Value.int 0) = .ok false) ∧
    (((Validator.mk []).add (fun _ => .ok false)).add
        (fun _ => .error (.mk (.other 0) "boom" Option.none Option.none)) =
      Validator.mk [fun _ => .ok false,
        fun _ => .error (.mk (.other 0) "boom" Option.none Option.none)]) ∧
    ((((Validator.mk []).add (fun _ => .ok false)).add
        (fun _ => .error (.mk (.other 0) "boom" Option.none Option.none))).call
      (Value.int 0) = .ok false) :=
  ⟨C6_predicate_chain_semantics.1 (Value.int 0),
   (C6_predicate_chain_semantics.2.1 (Validator.mk [fun _ => .ok true])
      (Value.int 0)).mpr (by simp),
   C6_predicate_chain_semantics.2.2.1 [] _ _ (Value.int 0) (by simp) rfl,
   C6_predicate_chain_semantics.2.2.2.1 _ _,
   C6_predicate_chain_semantics.2.2.2.2 _ _ (Value.int 0) rfl⟩

/-- C7: in Phase 2, a predicate raising the custom `QvalValidationError`
aborts evaluation of that parameter at once and the validation fails with
the 400 bad-input error whose detail is the custom error's own message
(with the custom error attached as cause), whereas a predicate merely
returning False produces the generic invalid-value message. -/
theorem C7_custom_validation_error (ps : List (String × Validator))
    (pre post : List (String × Value)) (p : String) (v : Value) (vd : Validator) (e : PyExc)
    (hpre : ∀ kv ∈ pre, ∃ w, alookup ps kv.1 = some w ∧ w.call kv.2 = .ok true)
    (hl : alookup ps p = some vd) :
    (vd.call v = .error e → e.cls = ExcClass.qvalValidationError →
      phase2 ps (pre ++ (p, v) :: post) =
        .error (.mk .invalidQueryParam e.detail (some 400) (some e))) ∧
    (vd.call v = .ok false →
      phase2 ps (pre ++ (p, v) :: post) =
        .error (.mk .invalidQueryParam (invalidValueMsg p v) (some 400)
          (some (.mk .qvalValidationError (invalidValueMsg p v) Option.none Option.none)))) := by
  constructor
  · intro hc he
    rw [phase2_append_ok ps pre _ hpre]
    simp only [phase2, hl, hc, he, if_pos]
  · intro hc
    rw [phase2_append_ok ps pre _ hpre]
    simp only [phase2, hl, hc, PyExc.detail]

/-- Witness for C7: a raising predicate yields the custom message, a
False-returning one the generic message. -/
theorem C7_custom_validation_error_witness :
    (phase2 [("num", Validator.mk [fun _ =>
        .error (.mk .qvalValidationError "custom msg" Option.none Option.none)])]
      ([] ++ ("num", Value.int 20) :: []) =
      .error (.mk .invalidQueryParam "custom msg" (some 400)
        (some (.mk .qvalValidationError "custom msg" Option.none Option.none)))) ∧
    (phase2 [("num", Validator.mk [fun _ => .ok false])]
      ([] ++ ("num", Value.int 20) :: []) =
      .error (.mk .invalidQueryParam (invalidValueMsg "num" (Value.int 20)) (some 400)
        (some (.mk .qvalValidationError (invalidValueMsg "num" (Value.int 20))
          Option.none Option.none)))) :=
  ⟨(C7_custom_validation_error
      [("num", Validator.mk [fun _ =>
        .error (.mk .qvalValidationError "custom msg" Option.none Option.none)])]
      [] [] "num" (Value.int 20)
      (Validator.mk [fun _ =>
        .error (.mk .qvalValidationError "custom msg" Option.none Option.none)])
      (.mk .qvalValidationError "custom msg" Option.none Option.none)
      (by simp) rfl).1 rfl rfl,
   (C7_custom_validation_error
      [("num", Validator.mk [fun _ => .ok false])]
      [] [] "num" (Value.int 20)
      (Validator.mk [fun _ => .ok false])
      (.mk .qvalValidationError "unused" Option.none Option.none)
      (by simp) rfl).2 rfl⟩

/-- C9: the result view rejects writes by index and by attribute with a
`TypeError` (so the backing mapping is never changed — no write ever
returns a box); reading an absent key by index or attribute raises the
distinct `KeyError` condition; membership and iteration reflect the
backing mapping, and the box produced by entering the session iterates
the validated result entries in the order they were finalized. -/
theorem C9_frozenbox_contract :
    (∀ (b : FrozenBox) (k : String) (v : Value),
       b.setItem k v = .error (.mk .typeError
         "FrozenBox object does not support item assignment" Option.none Option.none) ∧
       b.setAttr k v = .error (.mk .typeError
         "FrozenBox object does not support attribute assignment" Option.none Option.none) ∧
       (∀ b2 : FrozenBox, b.setItem k v ≠ .ok b2) ∧
       (∀ b2 : FrozenBox, b.setAttr k v ≠ .ok b2)) ∧
    (∀ (b : FrozenBox) (k : String), alookup b.dct k = Option.none →
       b.getItem k = .error (.mk .keyError k Option.none Option.none) ∧
       b.getAttr k = .error (.mk .keyError k Option.none Option.none) ∧
       ExcClass.keyError ≠ ExcClass.typeError) ∧
    (∀ (b : FrozenBox) (k : String), b.contains k = (alookup b.dct k).isSome) ∧
    (∀ b : FrozenBox, b.iter = b.dct) ∧
    (∀ (q : QueryParamValidator) (r : List (String × Value)),
       q.runValidation = .ok r → q.enter = (.ok ⟨r⟩, []) ∧ FrozenBox.iter ⟨r⟩ = r) := by
  refine ⟨?_, ?_, fun b k => rfl, fun b => rfl, ?_⟩
  · intro b k v
    refine ⟨rfl, rfl, fun b2 h => ?_, fun b2 h => ?_⟩
    · simp [FrozenBox.setItem] at h
    · simp [FrozenBox.setAttr] at h
  · intro b k hk
    refine ⟨?_, ?_, by decide⟩
    · simp [FrozenBox.getItem, hk]
    · simp [FrozenBox.getAttr, FrozenBox.getItem, hk]
  · intro q r h
    exact ⟨enter_ok q r h, rfl⟩

/-- Witness for C9 on a concrete box and session. -/
theorem C9_frozenbox_contract_witness :
    ((FrozenBox.mk [("num", Value.int 10)]).setItem "num" (Value.int 404) =
       .error (.mk .typeError
         "FrozenBox object does not support item assignment" Option.none Option.none)) ∧
    ((FrozenBox.mk [("num", Value.int 10)]).setAttr "num" (Value.int 404) =
       .error (.mk .typeError
         "FrozenBox object does not support attribute assignment" Option.none Option.none)) ∧
    ((FrozenBox.mk [("num", Value.int 10)]).getItem "absent" =
       .error (.mk .keyError "absent" Option.none Option.none)) ∧
    ((FrozenBox.mk [("num", Value.int 10)]).contains "num" =
       (alookup [("num", Value.int 10)] "num").isSome) ∧
    (QueryParamValidator.enter
        ⟨⟨[("s", "x")], Option.none⟩, [("s", Conv.id)], true,
         [("s", Value.str "x")], [("s", Validator.mk [])]⟩ =
      (.ok ⟨[("s", Value.str "x")]⟩, [])) :=
  ⟨(C9_frozenbox_contract.1 (FrozenBox.mk [("num", Value.int 10)]) "num" (Value.int 404)).1,
   (C9_frozenbox_contract.1 (FrozenBox.mk [("num", Value.int 10)]) "num" (Value.int 404)).2.1,
   ((C9_frozenbox_contract.2.1 (FrozenBox.mk [("num", Value.int 10)]) "absent") rfl).1,
   C9_frozenbox_contract.2.2.1 (FrozenBox.mk [("num", Value.int 10)]) "num",
   ((C9_frozenbox_contract.2.2.2.2
      ⟨⟨[("s", "x")], Option.none⟩, [("s", Conv.id)], true,
       [("s", Value.str "x")], [("s", Validator.mk [])]⟩
      [("s", Value.str "x")]) rfl).1⟩

/-- C1: when every declared parameter is present, every converter succeeds
and every predicate chain passes (that is, both phases of `_validate`
succeed), entering the session yields the frozen view of the final result
dict, and for every declared name both indexed and attribute access on the
view return exactly the declared converter applied to the raw string for
that name (the identity conversion when the declaration is `None`). -/
theorem C1_roundtrip (q : QueryParamValidator) (r : List (String × Value))
    (hnd : (q.factories.map Prod.fst).Nodup)
    (h1 : phase1 q.request.params q.factories q.result = .ok r)
    (h2 : phase2 q.paramsMap r = .ok ()) :
    q.enter = (.ok ⟨r⟩, []) ∧
    ∀ pc ∈ q.factories, ∃ raw val,
      alookup q.request.params pc.1 = some raw ∧
      applyConv pc.2 raw = .ok val ∧
      FrozenBox.getItem ⟨r⟩ pc.1 = .ok val ∧
      FrozenBox.getAttr ⟨r⟩ pc.1 = .ok val := by
  refine ⟨enter_ok q r (runValidation_ok q r h1 h2), ?_⟩
  intro pc hpc
  obtain ⟨raw, val, hraw, happ, hres⟩ :=
    phase1_ok_mem q.request.params q.factories q.result r hnd h1 pc hpc
  refine ⟨raw, val, hraw, happ, ?_, ?_⟩ <;>
    simp [FrozenBox.getItem, FrozenBox.getAttr, hres]

/-- Witness for C1 on a concrete request with an identity declaration. -/
theorem C1_roundtrip_witness :
    QueryParamValidator.enter
        ⟨⟨[("s", "x"), ("extra", "info")], Option.none⟩, [("s", Conv.id)], true,
         [("s", Value.str "x"), ("extra", Value.str "info")],
         [("s", Validator.mk []), ("extra", Validator.mk [])]⟩ =
      (.ok ⟨[("s", Value.str "x"), ("extra", Value.str "info")]⟩, []) ∧
    FrozenBox.getItem ⟨[("s", Value.str "x"), ("extra", Value.str "info")]⟩ "s" =
      .ok (Value.str "x") ∧
    applyConv Conv.id "x" = .ok (Value.str "x") :=
  ⟨(C1_roundtrip
      ⟨⟨[("s", "x"), ("extra", "info")], Option.none⟩, [("s", Conv.id)], true,
       [("s", Value.str "x"), ("extra", Value.str "info")],
       [("s", Validator.mk []), ("extra", Validator.mk [])]⟩
      [("s", Value.str "x"), ("extra", Value.str "info")]
      (by decide) rfl rfl).1, rfl, rfl⟩

/-- C8: on a validation run that succeeds, the key list of the final
result is exactly the raw parameter keys when the include-all flag is on
and exactly the declared names when it is off; every declared key holds
its converted value, and with the flag on every undeclared key still holds
its raw string value unchanged. -/
theorem C8_include_all_keys (req : Request) (fs : List (String × Conv))
    (vs : List (String × Validator)) (ba : Bool) (q : QueryParamValidator)
    (r : List (String × Value)) (hnd : (fs.map Prod.fst).Nodup)
    (hmk : QueryParamValidator.make req fs vs ba = .ok q)
    (hval : q.runValidation = .ok r) :
    (r.map Prod.fst = if ba then req.params.map Prod.fst else fs.map Prod.fst) ∧
    (∀ pc ∈ fs, ∃ raw val, alookup req.params pc.1 = some raw ∧
       applyConv pc.2 raw = .ok val ∧ alookup r pc.1 = some val) ∧
    (ba = true → ∀ k, k ∉ fs.map Prod.fst →
       alookup r k = (alookup req.params k).map Value.str) := by
  obtain ⟨hinit, hreq, hfs, hba, hpm⟩ := make_ok_elim req fs vs ba q hmk
  obtain ⟨h1, h2⟩ := runValidation_ok_elim q r hval
  rw [hreq, hfs] at h1
  have hresT : ba = true → q.result = req.params.map (fun kv => (kv.1, Value.str kv.2)) := by
    intro hb
    subst hb
    simp only [initResult, if_pos, Except.ok.injEq] at hinit
    exact hinit.symm
  refine ⟨?_, ?_, ?_⟩
  · cases ba with
    | true =>
      have hres := hresT rfl
      have hkeys : q.result.map Prod.fst = req.params.map Prod.fst := by
        rw [hres, List.map_map]
        rfl
      have hpresent := phase1_ok_present req.params fs q.result r h1
      have hfst := phase1_ok_fst req.params fs q.result r h1 ?_
      · rw [hfst, hkeys]
        simp
      · intro p hp
        obtain ⟨pc, hpc, hpc1⟩ := List.mem_map.mp hp
        obtain ⟨raw, val, hraw, _⟩ := hpresent pc hpc
        rw [hkeys, ← hpc1]
        exact (alookup_isSome_iff req.params pc.1).mp (by rw [hraw]; rfl)
    | false =>
      simp only [initResult, Bool.false_eq_true, if_false] at hinit
      have hkeys := initResultDeclared_ok_fst req.params fs q.result hinit
      have hfst := phase1_ok_fst req.params fs q.result r h1
        (fun p hp => by rw [hkeys]; exact hp)
      rw [hfst, hkeys]
      simp
  · exact phase1_ok_mem req.params fs q.result r hnd h1
  · intro hb k hk
    rw [phase1_ok_notin req.params fs q.result r h1 k hk, hresT hb, alookup_map_str]

/-- Witness for C8 with the include-all flag on: the undeclared key
`extra` survives as a raw string and the declared key keeps its converted
value. -/
theorem C8_include_all_keys_witness :
    ([("num", Value.str "42"), ("extra", Value.str "info")].map Prod.fst =
      if true then [("num", "42"), ("extra", "info")].map
        (Prod.fst (α := String) (β := String)) else ["num"]) ∧
    alookup [("num", Value.str "42"), ("extra", Value.str "info")] "num" =
      some (Value.str "42") ∧
    alookup [("num", Value.str "42"), ("extra", Value.str "info")] "extra" =
      (alookup [("num", "42"), ("extra", "info")] "extra").map Value.str :=
  ⟨(C8_include_all_keys ⟨[("num", "42"), ("extra", "info")], Option.none⟩
      [("num", Conv.id)] [] true
      ⟨⟨[("num", "42"), ("extra", "info")], Option.none⟩, [("num", Conv.id)], true,
       [("num", Value.str "42"), ("extra", Value.str "info")],
       [("num", Validator.mk []), ("extra", Validator.mk [])]⟩
      [("num", Value.str "42"), ("extra", Value.str "info")]
      (by decide) rfl rfl).1,
   rfl,
   (C8_include_all_keys ⟨[("num", "42"), ("extra", "info")], Option.none⟩
      [("num", Conv.id)] [] true
      ⟨⟨[("num", "42"), ("extra", "info")], Option.none⟩, [("num", Conv.id)], true,
       [("num", Value.str "42"), ("extra", Value.str "info")],
       [("num", Validator.mk []), ("extra", Validator.mk [])]⟩
      [("num", Value.str "42"), ("extra", Value.str "info")]
      (by decide) rfl rfl).2.2 rfl "extra" (by decide)⟩

/-- Counterexample to C2 as stated: (i) with the include-all flag on, a
declared parameter (`a`, declared before the missing `b`) whose value does
not convert makes the run fail with the invalid-type error for `a`, not
with `MissingParameter` for the missing `b` — fail-fast declaration order
does mask a missing parameter; (ii) with the flag off, a missing declared
parameter makes construction fail with a bare `KeyError`, not with the
`MissingParameter` bad-input error. -/
theorem C2_counterexample :
    runValidate ⟨[("a", "xx")], Option.none⟩ [("a", Conv.cint), ("b", Conv.id)] [] true
        (fun _ => (.ok () : Except PyExc Unit)) =
      (.error (invalidTypeExc "a" Conv.cint), []) ∧
    (invalidTypeExc "a" Conv.cint).detail ≠ missingMsg "b" ∧
    runValidate ⟨[("a", "1")], Option.none⟩ [("b", Conv.id)] [] false
        (fun _ => (.ok () : Except PyExc Unit)) =
      (.error (.mk .keyError "b" Option.none Option.none), []) ∧
    ExcClass.keyError ≠ ExcClass.invalidQueryParam :=
  ⟨rfl, by decide, rfl, by decide⟩

/-- C2 (amended): with the include-all flag on, if a declared parameter is
missing from the raw set and every declared parameter before it converts
successfully, the run fails with the `MissingParameter` bad-input error
naming that parameter — whatever the declarations after it, the registered
validators and the block — and, the run being a single error, exactly one
failure is reported; with the flag off, construction itself fails with a
bare `KeyError` naming the parameter instead of the bad-input error. -/
theorem C2_missing_parameter_amended :
    (∀ (α : Type) (req : Request) (pre post : List (String × Conv)) (p : String) (c : Conv)
       (vs : List (String × Validator)) (body : FrozenBox → Except PyExc α),
       (∀ pc ∈ pre, ∃ raw val, alookup req.params pc.1 = some raw ∧
          applyConv pc.2 raw = .ok val) →
       alookup req.params p = Option.none →
       runValidate req (pre ++ (p, c) :: post) vs true body = (.error (missingExc p), [])) ∧
    (∀ (α : Type) (req : Request) (pre post : List (String × Conv)) (p : String) (c : Conv)
       (vs : List (String × Validator)) (body : FrozenBox → Except PyExc α),
       (∀ pc ∈ pre, (alookup req.params pc.1).isSome) →
       alookup req.params p = Option.none →
       runValidate req (pre ++ (p, c) :: post) vs false body =
         (.error (.mk .keyError p Option.none Option.none), [])) := by
  constructor
  · intro α req pre post p c vs body hpre hp
    rw [runValidate_make_ok α req (pre ++ (p, c) :: post) vs true body _
      (make_boxAll_true req (pre ++ (p, c) :: post) vs)]
    have hcs : castStep req.params p c = .error (.mk .keyError p Option.none Option.none) := by
      unfold castStep
      rw [hp]
    have h1 := phase1_first_error req.params pre post
      (req.params.map (fun kv => (kv.1, Value.str kv.2))) p c _ hpre hcs
    have hval : QueryParamValidator.runValidation
        ⟨req, pre ++ (p, c) :: post, true,
         req.params.map (fun kv => (kv.1, Value.str kv.2)),
         buildParams (req.params.map (fun kv => (kv.1, Value.str kv.2))) vs⟩ =
        .error (classifyCastError p c (.mk .keyError p Option.none Option.none)) :=
      runValidation_error1 _ _ h1
    have hcl : classifyCastError p c (.mk .keyError p Option.none Option.none) =
        missingExc p := rfl
    rw [hcl] at hval
    exact runSession_enter_error α _ body _ hval rfl
  · intro α req pre post p c vs body hpre hp
    exact runValidate_make_error α req (pre ++ (p, c) :: post) vs false body _
      (make_boxAll_false_error req (pre ++ (p, c) :: post) vs _
        (initResultDeclared_append_missing req.params pre post p c hpre hp))

/-- Witness for the amended C2 at concrete inputs: a valid declared `a`
precedes the missing `b` (flag on), and the same setup with the flag off
fails at construction with a bare `KeyError`. -/
theorem C2_missing_parameter_amended_witness :
    runValidate ⟨[("a", "1")], Option.none⟩ [("a", Conv.id), ("b", Conv.id)] [] true
        (fun _ => (.ok () : Except PyExc Unit)) = (.error (missingExc "b"), []) ∧
    runValidate ⟨[("a", "1")], Option.none⟩ [("a", Conv.id), ("b", Conv.id)] [] false
        (fun _ => (.ok () : Except PyExc Unit)) =
      (.error (.mk .keyError "b" Option.none Option.none), []) :=
  ⟨C2_missing_parameter_amended.1 Unit ⟨[("a", "1")], Option.none⟩
      [("a", Conv.id)] [] "b" Conv.id [] (fun _ => .ok ())
      (by simp [alookup, applyConv]) rfl,
   C2_missing_parameter_amended.2 Unit ⟨[("a", "1")], Option.none⟩
      [("a", Conv.id)] [] "b" Conv.id [] (fun _ => .ok ())
      (by simp [alookup]) rfl⟩

/-- Counterexample to C3 as stated: a converter raising a `KeyError`-class
exception — a class other than `ValueError`/`TypeError` — does not
propagate out of the validation pass unchanged: it is caught and reported
as the 400 bad-input error with the missing-parameter message. -/
theorem C3_counterexample :
    runValidate ⟨[("a", "1")], Option.none⟩
        [("a", Conv.custom (fun _ => .error (.mk .keyError "k" Option.none Option.none)))]
        [] true (fun _ => (.ok () : Except PyExc Unit)) =
      (.error (missingExc "a"), []) ∧
    (missingExc "a").cls = ExcClass.invalidQueryParam ∧
    missingExc "a" ≠ .mk .keyError "k" Option.none Option.none := by
  refine ⟨rfl, rfl, ?_⟩
  intro h
  simp [missingExc] at h

/-- C3 (amended): for a declared parameter present in the raw set whose
converter raises, the conversion phase reports the `InvalidType` bad-input
error exactly on `ValueError`/`TypeError`; a `KeyError` is caught too but
reported as the `MissingParameter` bad-input error; an exception of any
other class propagates out of the validation pass unchanged. -/
theorem C3_conversion_error_classification (qp : List (String × String))
    (pre post : List (String × Conv)) (d : List (String × Value)) (p : String)
    (f : String → Except PyExc Value) (raw : String) (e : PyExc)
    (hpre : ∀ pc ∈ pre, ∃ raw2 val, alookup qp pc.1 = some raw2 ∧ applyConv pc.2 raw2 = .ok val)
    (hraw : alookup qp p = some raw) (hf : f raw = .error e) :
    (e.cls.caughtAsValueOrTypeError = true →
       phase1 qp (pre ++ (p, Conv.custom f) :: post) d =
         .error (invalidTypeExc p (Conv.custom f))) ∧
    (e.cls.caughtAsKeyError = true →
       phase1 qp (pre ++ (p, Conv.custom f) :: post) d = .error (missingExc p)) ∧
    (e.cls.caughtAsValueOrTypeError = false → e.cls.caughtAsKeyError = false →
       phase1 qp (pre ++ (p, Conv.custom f) :: post) d = .error e) := by
  have hcs : castStep qp p (Conv.custom f) = .error e := by
    unfold castStep
    rw [hraw]
    exact hf
  have hmain := phase1_first_error qp pre post d p (Conv.custom f) e hpre hcs
  obtain ⟨cls, dd, ss, cc⟩ := e
  refine ⟨?_, ?_, ?_⟩
  · intro hvt
    rw [hmain]
    cases cls <;> simp_all [classifyCastError, ExcClass.caughtAsValueOrTypeError,
      ExcClass.caughtAsKeyError, PyExc.cls]
  · intro hke
    rw [hmain]
    cases cls <;> simp_all [classifyCastError, ExcClass.caughtAsValueOrTypeError,
      ExcClass.caughtAsKeyError, PyExc.cls]
  · intro hvt hke
    rw [hmain]
    simp [classifyCastError, hvt, hke]

/-- Witness for the amended C3: the three classes of converter failure on
one concrete request. -/
theorem C3_conversion_error_classification_witness :
    phase1 [("a", "1")] ([] ++ ("a", Conv.custom (fun _ =>
        .error (.mk .valueError "bad" Option.none Option.none))) :: []) [] =
      .error (invalidTypeExc "a" (Conv.custom (fun _ =>
        .error (.mk .valueError "bad" Option.none Option.none)))) ∧
    phase1 [("a", "1")] ([] ++ ("a", Conv.custom (fun _ =>
        .error (.mk .keyError "k" Option.none Option.none))) :: []) [] =
      .error (missingExc "a") ∧
    phase1 [("a", "1")] ([] ++ ("a", Conv.custom (fun _ =>
        .error (.mk (.other 7) "boom" Option.none Option.none))) :: []) [] =
      .error (.mk (.other 7) "boom" Option.none Option.none) :=
  ⟨(C3_conversion_error_classification [("a", "1")] [] [] [] "a" _ "1"
      (.mk .valueError "bad" Option.none Option.none) (by simp) rfl rfl).1 rfl,
   (C3_conversion_error_classification [("a", "1")] [] [] [] "a" _ "1"
      (.mk .keyError "k" Option.none Option.none) (by simp) rfl rfl).2.1 rfl,
   (C3_conversion_error_classification [("a", "1")] [] [] [] "a" _ "1"
      (.mk (.other 7) "boom" Option.none Option.none) (by simp) rfl rfl).2.2 rfl rfl⟩

/-- Counterexample to C4 as stated: a converter raising `KeyError` is
reported with the missing-parameter message — the `MissingParameter` kind,
not the `InvalidType` kind (the message differs from the invalid-type
message of `a` under every converter shape). -/
theorem C4_counterexample :
    runValidate ⟨[("a", "1")], Option.none⟩
        [("a", Conv.custom (fun _ => .error (.mk .keyError "k" Option.none Option.none)))]
        [] true (fun _ => (.ok () : Except PyExc Unit)) =
      (.error (missingExc "a"), []) ∧
    (missingExc "a").detail = missingMsg "a" ∧
    missingMsg "a" ≠ invalidTypeMsg "a"
      (Conv.custom (fun _ => .error (.mk .keyError "k" Option.none Option.none))) ∧
    missingMsg "a" ≠ invalidTypeMsg "a" Conv.cint ∧
    missingMsg "a" ≠ invalidTypeMsg "a" Conv.cfloat ∧
    missingMsg "a" ≠ invalidTypeMsg "a" Conv.id :=
  ⟨rfl, rfl, by decide, by decide, by decide, by decide⟩

/-- C4 (amended): a converter raising a `KeyError`-class error yields the
`MissingParameter` bad-input kind for that parameter (not `InvalidType`);
the expected-type hint of the `InvalidType` error raised on
`ValueError`/`TypeError` names the type exactly when the converter is the
builtin `int` or `float` constructor and is omitted (a bare period) for
the identity and for every custom converter. -/
theorem C4_keyerror_kind_and_hint (qp : List (String × String))
    (pre post : List (String × Conv)) (d : List (String × Value)) (p : String)
    (c : Conv) (e : PyExc)
    (hpre : ∀ pc ∈ pre, ∃ raw val, alookup qp pc.1 = some raw ∧ applyConv pc.2 raw = .ok val)
    (hcs : castStep qp p c = .error e) :
    (e.cls.caughtAsKeyError = true →
       phase1 qp (pre ++ (p, c) :: post) d = .error (missingExc p)) ∧
    (e.cls.caughtAsValueOrTypeError = true →
       phase1 qp (pre ++ (p, c) :: post) d = .error (invalidTypeExc p c)) ∧
    expectedHint Conv.cint = ": expected int." ∧
    expectedHint Conv.cfloat = ": expected float." ∧
    expectedHint Conv.id = "." ∧
    (∀ f : String → Except PyExc Value, expectedHint (Conv.custom f) = ".") := by
  have hmain := phase1_first_error qp pre post d p c e hpre hcs
  obtain ⟨cls, dd, ss, cc⟩ := e
  refine ⟨?_, ?_, rfl, rfl, rfl, fun f => rfl⟩
  · intro hke
    rw [hmain]
    cases cls <;> simp_all [classifyCastError, ExcClass.caughtAsKeyError, PyExc.cls]
  · intro hvt
    rw [hmain]
    cases cls <;> simp_all [classifyCastError, ExcClass.caughtAsValueOrTypeError,
      ExcClass.caughtAsKeyError, PyExc.cls]

/-- Witness for the amended C4: a `KeyError`-raising converter yields the
missing-parameter kind; the builtin `int` yields the hinted invalid-type
error on an unparsable value. -/
theorem C4_keyerror_kind_and_hint_witness :
    phase1 [("a", "1")] ([] ++ ("a", Conv.custom (fun _ =>
        .error (.mk .keyError "k" Option.none Option.none))) :: []) [] =
      .error (missingExc "a") ∧
    phase1 [("a", "xx")] ([] ++ ("a", Conv.cint) :: []) [] =
      .error (invalidTypeExc "a" Conv.cint) ∧
    expectedHint Conv.cint = ": expected int." :=
  ⟨(C4_keyerror_kind_and_hint [("a", "1")] [] [] [] "a"
      (Conv.custom (fun _ => .error (.mk .keyError "k" Option.none Option.none)))
      (.mk .keyError "k" Option.none Option.none) (by simp) rfl).1 rfl,
   (C4_keyerror_kind_and_hint [("a", "xx")] [] [] [] "a" Conv.cint
      (.mk .valueError ("invalid literal for int with base 10: " ++ "xx")
        Option.none Option.none) (by simp) rfl).2.1 rfl,
   (C4_keyerror_kind_and_hint [("a", "1")] [] [] [] "a"
      (Conv.custom (fun _ => .error (.mk .keyError "k2" Option.none Option.none)))
      (.mk .keyError "k2" Option.none Option.none) (by simp) rfl).2.2.1⟩

/-- C5: an exception raised inside the scoped block after successful
validation, whenever its class is not the bad-input class, is intercepted
by the session exit, logged exactly once together with the raw parameters
and the request body, and re-raised as the generic internal-error
`APIException` (status 500) whose client-visible detail is the fixed
generic text — independent of the original message — with the original
exception attached as the cause; the bad-input error raised during enter
propagates to the caller unchanged and unlogged. -/
theorem C5_exit_reclassifies_and_logs_once :
    (∀ (α : Type) (q : QueryParamValidator) (body : FrozenBox → Except PyExc α)
       (r : List (String × Value)) (e : PyExc),
       q.runValidation = .ok r → body ⟨r⟩ = .error e →
       e.cls ≠ ExcClass.invalidQueryParam →
       q.runSession body =
         (.error (.mk .apiException internalErrorMsg (some 500) (some e)),
          [⟨q.request.params, q.request.body, e.cls, e.detail⟩])) ∧
    (∀ (α : Type) (q : QueryParamValidator) (body : FrozenBox → Except PyExc α) (e : PyExc),
       q.runValidation = .error e → e.cls = ExcClass.invalidQueryParam →
       q.runSession body = (.error e, [])) := by
  constructor
  · intro α q body r e hv hb hc
    rw [runSession_block_error α q body r e hv hb]
    simp [hc]
  · intro α q body e hv hc
    exact runSession_enter_error α q body e hv hc

/-- Witness for C5: an `IOError`-like exception in the block is logged
once with the parameters and body and surfaces as the generic 500 with
the original as cause; a missing-parameter failure during enter
propagates as-is with no log. -/
theorem C5_exit_reclassifies_and_logs_once_witness :
    QueryParamValidator.runSession
        ⟨⟨[("a", "1")], some "req body"⟩, [], true, [("a", Value.str "1")],
         [("a", Validator.mk [])]⟩
        (fun _ => (.error (.mk (.other 3) "inner" Option.none Option.none) :
          Except PyExc Unit)) =
      (.error (.mk .apiException internalErrorMsg (some 500)
         (some (.mk (.other 3) "inner" Option.none Option.none))),
       [⟨[("a", "1")], some "req body", .other 3, "inner"⟩]) ∧
    QueryParamValidator.runSession
        ⟨⟨[("a", "1")], some "req body"⟩, [("b", Conv.id)], true, [("a", Value.str "1")],
         [("a", Validator.mk [])]⟩
        (fun _ => (.ok () : Except PyExc Unit)) =
      (.error (missingExc "b"), []) :=
  ⟨C5_exit_reclassifies_and_logs_once.1 Unit
      ⟨⟨[("a", "1")], some "req body"⟩, [], true, [("a", Value.str "1")],
       [("a", Validator.mk [])]⟩
      (fun _ => .error (.mk (.other 3) "inner" Option.none Option.none))
      [("a", Value.str "1")]
      (.mk (.other 3) "inner" Option.none Option.none) rfl rfl (by decide),
   C5_exit_reclassifies_and_logs_once.2 Unit
      ⟨⟨[("a", "1")], some "req body"⟩, [("b", Conv.id)], true, [("a", Value.str "1")],
       [("a", Validator.mk [])]⟩
      (fun _ => .ok ())
      (missingExc "b") rfl rfl⟩

/-- C10: the session exit passes an exception through unreclassified only
when its class is exactly the bad-input class `InvalidQueryParamException`:
any exception whose class differs — including every proper subclass of the
bad-input class, which the modelled hierarchy exhibits, and every other
subclass of the base `APIException` — is logged and re-raised as the
generic internal error. -/
theorem C10_exit_exact_class_check (α : Type) (q : QueryParamValidator)
    (body : FrozenBox → Except PyExc α) (r : List (String × Value)) (e : PyExc)
    (hv : q.runValidation = .ok r) (hb : body ⟨r⟩ = .error e) :
    ((e.cls = ExcClass.invalidQueryParam → q.runSession body = (.error e, [])) ∧
     (e.cls ≠ ExcClass.invalidQueryParam →
        q.runSession body =
          (.error (.mk .apiException internalErrorMsg (some 500) (some e)),
           [⟨q.request.params, q.request.body, e.cls, e.detail⟩]))) ∧
    (∀ n : Nat, (ExcClass.invalidQueryParamSub n).subclassOfInvalidQueryParam = true ∧
       (ExcClass.invalidQueryParamSub n).subclassOfAPIException = true ∧
       ExcClass.invalidQueryParamSub n ≠ ExcClass.invalidQueryParam) ∧
    (∀ n : Nat, (ExcClass.apiExceptionSub n).subclassOfAPIException = true ∧
       ExcClass.apiExceptionSub n ≠ ExcClass.invalidQueryParam) := by
  refine ⟨⟨?_, ?_⟩, fun n => ⟨rfl, rfl, by simp⟩, fun n => ⟨rfl, by simp⟩⟩
  · intro hc
    rw [runSession_block_error α q body r e hv hb]
    simp [hc]
  · intro hc
    rw [runSession_block_error α q body r e hv hb]
    simp [hc]

/-- Witness for C10: a proper subclass of the bad-input exception class
raised in the block is reclassified to the generic 500 and logged, not
passed through. -/
theorem C10_exit_exact_class_check_witness :
    QueryParamValidator.runSession
        ⟨⟨[("a", "1")], Option.none⟩, [], true, [("a", Value.str "1")],
         [("a", Validator.mk [])]⟩
        (fun _ => (.error (.mk (.invalidQueryParamSub 0) "sub" (some 400) Option.none) :
          Except PyExc Unit)) =
      (.error (.mk .apiException internalErrorMsg (some 500)
         (some (.mk (.invalidQueryParamSub 0) "sub" (some 400) Option.none))),
       [⟨[("a", "1")], Option.none, .invalidQueryParamSub 0, "sub"⟩]) ∧
    (ExcClass.invalidQueryParamSub 0).subclassOfInvalidQueryParam = true :=
  ⟨((C10_exit_exact_class_check Unit
      ⟨⟨[("a", "1")], Option.none⟩, [], true, [("a", Value.str "1")],
       [("a", Validator.mk [])]⟩
      (fun _ => .error (.mk (.invalidQueryParamSub 0) "sub" (some 400) Option.none))
      [("a", Value.str "1")]
      (.mk (.invalidQueryParamSub 0) "sub" (some 400) Option.none) rfl rfl).1.2)
      (by decide),
   ((C10_exit_exact_class_check Unit
      ⟨⟨[("a", "1")], Option.none⟩, [], true, [("a", Value.str "1")],
       [("a", Validator.mk [])]⟩
      (fun _ => .error (.mk (.invalidQueryParamSub 0) "sub" (some 400) Option.none))
      [("a", Value.str "1")]
      (.mk (.invalidQueryParamSub 0) "sub" (some 400) Option.none) rfl rfl).2.1 0).1⟩

end Qval
